import Mathlib

/-!
Shallow embedding of `server/server.go` of the replicant repository.

The server composes per-route handlers with middleware (`logger`, `recovery`,
`basicAuth`) and exposes lifecycle operations (`New`, `Start`, `Close`,
`AddHandler`, `AddServerHandler`).  Handlers are embedded as a small effect
tree (`HandlerM`) describing what a Go handler can do against its
`http.ResponseWriter`, the structured log package, the clock and the runtime
(`panic`, `debug.Stack`).  Middleware are computation transformers, exactly
mirroring the closure wrappers of the source; `runH` interprets a computation
against an environment supplying the clock, the byte counts accepted by the
underlying response sink, and the runtime stack trace.
-/

namespace Replicant

/-- Log levels of the structured logging collaborator (`log.Info` / `log.Error`). -/
inductive LogLevel where
  | info
  | error
deriving DecidableEq

/-- A structured log field value: the `String` / `Int` combinators of the log package. -/
inductive LogField where
  | str (s : String)
  | int (i : Int)
deriving DecidableEq

/-- One structured log entry: level, message and ordered key/value fields. -/
structure LogEntry where
  level : LogLevel
  msg : String
  fields : List (String × LogField)
deriving DecidableEq

/-- Observable operations performed on the underlying response sink. -/
inductive Event where
  | setHeader (key value : String)
  | writeHeader (status : Nat)
  | write (data : String)
deriving DecidableEq

/-- The request data consumed by the middleware: `r.Method`, `r.URL.String()`,
`r.RemoteAddr`, and the decoded basic-auth header (`r.BasicAuth()`), `none`
when the header is absent or malformed. -/
structure Request where
  method : String
  url : String
  remoteAddr : String
  basicAuth : Option (String × String)
deriving DecidableEq

/-- Route parameters, `httprouter.Params`. -/
abbrev Params := List (String × String)

/-- A handler computation: the effects a Go handler can perform against the
response writer it was handed, the log package, the clock and the runtime.
`write` passes the byte count and error reported by the underlying writer to
its continuation, as `http.ResponseWriter.Write` does. -/
inductive HandlerM (α : Type) : Type where
  | pure (a : α)
  | setHeader (key value : String) (next : HandlerM α)
  | writeHeader (status : Nat) (next : HandlerM α)
  | write (data : String) (k : Nat → Option String → HandlerM α)
  | logInfo (e : LogEntry) (next : HandlerM α)
  | logError (e : LogEntry) (next : HandlerM α)
  | now (k : Int → HandlerM α)
  | getStack (k : String → HandlerM α)
  | panicWith (msg : String)

/-- Sequencing of handler computations; a panic aborts the rest, as in Go. -/
def bindH {α β : Type} : HandlerM α → (α → HandlerM β) → HandlerM β
  | .pure a, f => f a
  | .setHeader k v n, f => .setHeader k v (bindH n f)
  | .writeHeader s n, f => .writeHeader s (bindH n f)
  | .write d k, f => .write d (fun n e => bindH (k n e) f)
  | .logInfo e n, f => .logInfo e (bindH n f)
  | .logError e n, f => .logError e (bindH n f)
  | .now k, f => .now (fun t => bindH (k t) f)
  | .getStack k, f => .getStack (fun s => bindH (k s) f)
  | .panicWith m, _ => .panicWith m

/-- `Handler = httprouter.Handle`: a function of the response writer (implicit
in the effect tree), the request and the route parameters. -/
def Handler := Request → Params → HandlerM Unit

/-- The observable state of the `statusWriter` decorator: observed status and
cumulative byte count.  The embedded `http.ResponseWriter` it forwards to is
represented by the surrounding interpretation (`swRun` / `runH`). -/
structure statusWriter where
  status : Nat
  length : Nat
deriving DecidableEq

/-- `statusWriter.WriteHeader`: records the status, then forwards. -/
def statusWriter.WriteHeader (w : statusWriter) (status : Nat) : statusWriter :=
  { w with status := status }

/-- `statusWriter.Write`: if no status was recorded yet, records 200; forwards
the bytes and adds the underlying writer's reported count `n` to the total. -/
def statusWriter.Write (w : statusWriter) (n : Nat) : statusWriter :=
  let w := if w.status = 0 then { w with status := 200 } else w
  { w with length := w.length + n }

/-- Interpretation of a handler computation through a fresh `statusWriter`
wrapping the writer outside: `writeHeader` and `write` update the observed
state and are forwarded unchanged; the final observed state is returned. -/
def swRun (st : statusWriter) : HandlerM Unit → HandlerM statusWriter
  | .pure _ => .pure st
  | .setHeader k v n => .setHeader k v (swRun st n)
  | .writeHeader s n => .writeHeader s (swRun (st.WriteHeader s) n)
  | .write d k => .write d (fun n e => swRun (st.Write n) (k n e))
  | .logInfo e n => .logInfo e (swRun st n)
  | .logError e n => .logError e (swRun st n)
  | .now k => .now (fun t => swRun st (k t))
  | .getStack k => .getStack (fun s => swRun st (k s))
  | .panicWith m => .panicWith m

/-- The error-level entry emitted by `recovery`: fault description
(`fmt.Sprintf("%s", err)`) and the stack trace from `debug.Stack()`. -/
def recoveredEntry (m stack : String) : LogEntry :=
  ⟨.error, "recovered from panic", [("error", .str m), ("stack", .str stack)]⟩

/-- JSON string escaping used by `encoding/json` for the characters occurring
in fault descriptions (quote, backslash, newline). -/
def jsonEscapeChar (c : Char) : String :=
  if c = '"' then "\\\"" else if c = '\\' then "\\\\" else if c = '\n' then "\\n" else String.singleton c

/-- JSON-quoted string. -/
def jsonQuote (s : String) : String :=
  "\"" ++ String.join (s.toList.map jsonEscapeChar) ++ "\""

/-- The body produced by `json.Marshal` on the recovery error map; Go
serialises map keys in sorted order, so `error` precedes `message`. -/
def jsonErrorBody (m : String) : String :=
  "\x7b\"error\":" ++ jsonQuote m ++ ",\"message\":\"There was an internal server error\"\x7d"

/-- The deferred-recover branch of the `recovery` middleware after a panic with
description `m`: fetch the stack, log one error entry, then write the 500
response (content-type header, status, JSON body). -/
def recoverBody (m : String) : HandlerM Unit :=
  .getStack (fun stack =>
    .logError (recoveredEntry m stack)
      (.setHeader "Content-Type" "application/json"
        (.writeHeader 500
          (.write (jsonErrorBody m) (fun _ _ => .pure ())))))

/-- Interpretation of `defer { recover() ... }` around a computation: a panic
anywhere is replaced by the recovery branch; everything else is untouched. -/
def recoverRun : HandlerM Unit → HandlerM Unit
  | .pure a => .pure a
  | .setHeader k v n => .setHeader k v (recoverRun n)
  | .writeHeader s n => .writeHeader s (recoverRun n)
  | .write d k => .write d (fun n e => recoverRun (k n e))
  | .logInfo e n => .logInfo e (recoverRun n)
  | .logError e n => .logError e (recoverRun n)
  | .now k => .now (fun t => recoverRun (k t))
  | .getStack k => .getStack (fun s => recoverRun (k s))
  | .panicWith m => recoverBody m

/-- The `recovery` middleware of the source. -/
def recovery (h : Handler) : Handler := fun r p => recoverRun (h r p)

/-- The info-level entry emitted by `logger` for one request. -/
def apiRequestEntry (r : Request) (status length duration : Int) : LogEntry :=
  ⟨.info, "api request",
    [("method", .str r.method), ("uri", .str r.url), ("requester", .str r.remoteAddr),
     ("status", .int status), ("content_length", .int length), ("duration_ms", .int duration)]⟩

/-- The `logger` middleware of the source: records the start time, substitutes
a fresh `statusWriter`, runs the inner handler, then logs one entry with the
observed status, byte count and elapsed milliseconds. -/
def logger (h : Handler) : Handler := fun r p =>
  .now (fun start =>
    bindH (swRun ⟨0, 0⟩ (h r p)) (fun sw =>
      .now (fun stop =>
        .logInfo (apiRequestEntry r (sw.status : Int) (sw.length : Int) (stop - start)) (.pure ()))))

/-- `http.StatusText` for the status codes this server uses. -/
def statusText (code : Nat) : String :=
  if code = 401 then "Unauthorized" else ""

/-- `net/http.Error`: sets the plain-text content type and nosniff headers,
writes the status code and the message followed by a newline. -/
def httpError (text : String) (code : Nat) : HandlerM Unit :=
  .setHeader "Content-Type" "text/plain; charset=utf-8"
    (.setHeader "X-Content-Type-Options" "nosniff"
      (.writeHeader code
        (.write (text ++ "\n") (fun _ _ => .pure ()))))

/-- The `basicAuth` middleware exactly as written in the source: the variables
bound from `r.BasicAuth()` shadow the configured `user` and `password`
parameters, so the comparison `user == user && password == password` relates
the extracted values to themselves. -/
def basicAuth (h : Handler) (user password : String) : Handler :=
  fun r ps =>
    match r.basicAuth with
    | some (user, password) =>
        if user == user && password == password then h r ps
        else httpError (statusText 401) 401
    | none => httpError (statusText 401) 401

/-- `Config` for the replicant server; durations are `time.Duration` values as
integers, zero meaning unset. -/
structure Config where
  Username : String
  Password : String
  ListenAddress : String
  WriteTimeout : Int
  ReadTimeout : Int
  ReadHeaderTimeout : Int
deriving DecidableEq

/-- The manager collaborator: only its `Close` result is visible to the server. -/
structure Manager where
  closeResult : Option String

/-- What the transport's `Handler` field can be bound to: `New` assigns the
server's router (a pointer in Go, so the binding is by reference). -/
inductive HandlerRef where
  | toRouter
deriving DecidableEq

/-- The fields of `net/http.Server` that `New` touches. -/
structure GoHTTPServer where
  Addr : String
  WriteTimeout : Int
  ReadTimeout : Int
  ReadHeaderTimeout : Int
  Handler : Option HandlerRef

/-- The Go zero value `&http.Server{}`: empty address, zero timeouts, no handler. -/
def GoHTTPServer.zeroValue : GoHTTPServer := ⟨"", 0, 0, 0, none⟩

/-- One registered route of the router. -/
structure Route where
  method : String
  path : String
  handle : Handler

/-- The router, as its ordered table of registered routes (`router.Handle` appends). -/
abbrev Router := List Route

/-- The replicant `Server`. -/
structure Server where
  config : Config
  http : GoHTTPServer
  router : Router
  manager : Manager

/-- `New`: assembles the transport from the zero value with the configured
address, sets each timeout only when the config field is nonzero, binds the
transport handler to the router, and returns no error. -/
def New (config : Config) (m : Manager) (r : Router) : Server × Option String :=
  let http0 := GoHTTPServer.zeroValue
  let http1 := { http0 with Addr := config.ListenAddress }
  let http2 := if config.WriteTimeout ≠ 0 then { http1 with WriteTimeout := config.WriteTimeout } else http1
  let http3 := if config.ReadTimeout ≠ 0 then { http2 with ReadTimeout := config.ReadTimeout } else http2
  let http4 := if config.ReadHeaderTimeout ≠ 0 then { http3 with ReadHeaderTimeout := config.ReadHeaderTimeout } else http3
  let http5 := { http4 with Handler := some HandlerRef.toRouter }
  ({ config := config, http := http5, router := r, manager := m }, none)

/-- Errors the transport's `ListenAndServe` can terminate with;
`errServerClosed` is `http.ErrServerClosed`. -/
inductive GoErr where
  | errServerClosed
  | otherErr (msg : String)
deriving DecidableEq

/-- The message of a Go error value (`%w` rendering); `none` is a nil error. -/
def errString : Option GoErr → String
  | none => "%!w(<nil>)"
  | some .errServerClosed => "http: Server closed"
  | some (.otherErr m) => m

/-- `Start`: runs `ListenAndServe` (whose terminating condition the transport
environment supplies) and wraps any outcome other than `http.ErrServerClosed`
in a non-nil error; the server-closed condition yields nil. -/
def Server.Start (_s : Server) (serveResult : Option GoErr) : Option String :=
  if serveResult ≠ some GoErr.errServerClosed then
    some ("server: error starting http: " ++ errString serveResult)
  else none

/-- An opaque deadline/cancellation context handed to `Shutdown`. -/
structure Ctx where
  id : Nat
deriving DecidableEq

/-- The transport's shutdown behaviour: the error `Shutdown` reports for a
given context. -/
structure Transport where
  shutdownResult : Ctx → Option String

/-- `Close`: calls `s.http.Shutdown(ctx)` — whose error the source discards —
then returns `s.manager.Close()`.  The second component records the `Shutdown`
calls made, in order, so that statements can refer to what was invoked. -/
def Server.Close (s : Server) (t : Transport) (ctx : Ctx) : Option String × List Ctx :=
  let _shutdownErr := t.shutdownResult ctx
  (s.manager.closeResult, [ctx])

/-- The info entry `AddHandler` / `AddServerHandler` emit at registration. -/
def addingHandlerEntry (path method : String) : LogEntry :=
  ⟨.info, "adding handler", [("path", .str path), ("method", .str method)]⟩

/-- `AddHandler`: logs the registration, wraps the handler in `basicAuth` when
both configured credentials are non-empty, and registers
`logger (recovery handler)` with the router. -/
def Server.AddHandler (s : Server) (method path : String) (handler : Handler) :
    Server × List LogEntry :=
  let logs := [addingHandlerEntry path method]
  let handler :=
    if s.config.Username != "" && s.config.Password != "" then
      basicAuth handler s.config.Username s.config.Password
    else handler
  ({ s with router := s.router ++ [⟨method, path, logger (recovery handler)⟩] }, logs)

/-- A handler that has access to the server. -/
def ServerHandler := Server → Handler

/-- `AddServerHandler`: like `AddHandler`, but first materialises the plain
handler by applying the factory to the server. -/
def Server.AddServerHandler (s : Server) (method path : String) (handler : ServerHandler) :
    Server × List LogEntry :=
  let logs := [addingHandlerEntry path method]
  let h : Handler :=
    match s.config.Username != "" && s.config.Password != "" with
    | true => basicAuth (handler s) s.config.Username s.config.Password
    | false => handler s
  ({ s with router := s.router ++ [⟨method, path, logger (recovery h)⟩] }, logs)

/-- Interpreter state: how many clock reads and underlying writes happened,
the events on the underlying sink, and the emitted log entries. -/
structure RunState where
  nowCount : Nat
  writeCount : Nat
  events : List Event
  logs : List LogEntry
deriving DecidableEq

/-- The outcome of running a handler computation: a value, or an uncaught panic. -/
inductive Outcome (α : Type) where
  | ok (a : α)
  | panicked (msg : String)
deriving DecidableEq

/-- The environment a run happens in: the monotone wall clock (millisecond
readings, indexed by read count), the underlying sink's reply to each write
(byte count accepted and error, indexed by write count), and the runtime's
stack trace text. -/
structure World where
  clock : Nat → Int
  sink : Nat → String → Nat × Option String
  stack : String

/-- Interpret a handler computation in an environment. -/
def runH {α : Type} (w : World) : HandlerM α → RunState → RunState × Outcome α
  | .pure a, s => (s, .ok a)
  | .setHeader k v n, s => runH w n { s with events := s.events ++ [.setHeader k v] }
  | .writeHeader st n, s => runH w n { s with events := s.events ++ [.writeHeader st] }
  | .write d k, s =>
      let r := w.sink s.writeCount d
      runH w (k r.1 r.2) { s with writeCount := s.writeCount + 1, events := s.events ++ [.write d] }
  | .logInfo e n, s => runH w n { s with logs := s.logs ++ [e] }
  | .logError e n, s => runH w n { s with logs := s.logs ++ [e] }
  | .now k, s => runH w (k (w.clock s.nowCount)) { s with nowCount := s.nowCount + 1 }
  | .getStack k, s => runH w (k w.stack) s
  | .panicWith m, s => (s, .panicked m)

/-- Continuation of a run after a first stage: feed an `ok` value to the rest,
propagate a panic. -/
def andThen {α β : Type} (w : World) (r : RunState × Outcome α) (f : α → HandlerM β) :
    RunState × Outcome β :=
  match r with
  | (s, .ok a) => runH w (f a) s
  | (s, .panicked m) => (s, .panicked m)

/-- What `recoverRun` makes of a completed run: `ok` results pass through, a
panic is replaced by running the recovery branch from the state at the panic. -/
def recoverOutcome (w : World) (r : RunState × Outcome Unit) : RunState × Outcome Unit :=
  match r with
  | (s, .ok a) => (s, .ok a)
  | (s, .panicked m) => runH w (recoverBody m) s

/-- An inner handler instrumented with a marker entry logged on entry: the
side-effect counter of the spec's testable property, used to observe that the
business handler was actually invoked. -/
def hitEntry : LogEntry := ⟨.info, "handler hit", []⟩

/-- Instrument a handler so that reaching it is observable in the log. -/
def tagged (h : Handler) : Handler := fun r p => .logInfo hitEntry (h r p)

/-- The first non-nil error of two lifecycle steps, in order. -/
def firstErrorOf (a b : Option String) : Option String :=
  match a with
  | some e => some e
  | none => b

/-- The middleware composition order asserted by the spec's composition-order
sentence, stated from the spec's words for comparison with the chain the code
stores: Recovery outermost, then RequestLogger, then BasicAuth when both
credentials are non-empty, then the business handler. -/
def claimedChainC2 (cfg : Config) (h : Handler) : Handler :=
  recovery (logger
    (if cfg.Username != "" && cfg.Password != "" then
      basicAuth h cfg.Username cfg.Password
    else h))

/-- A configuration with no credentials and all timeouts unset. -/
def cfg0 : Config := ⟨"", "", "", 0, 0, 0⟩

/-- A manager whose `Close` succeeds. -/
def mgr0 : Manager := ⟨none⟩

/-- A concrete environment: constant clock, a sink accepting every byte, and a
non-empty runtime stack trace. -/
def w0 : World := ⟨fun _ => 0, fun _ d => (d.length, none), "stacktrace"⟩

/-- The initial run state: nothing observed yet. -/
def rs0 : RunState := ⟨0, 0, [], []⟩

/-- A concrete request without basic-auth credentials. -/
def req0 : Request := ⟨"GET", "/boom", "127.0.0.1:9", none⟩

/-- A business handler that panics with description `x`. -/
def hpanic : Handler := fun _ _ => .panicWith "x"

/-- A business handler that only logs the marker entry. -/
def hitHandler : Handler := fun _ _ => .logInfo hitEntry (.pure ())

/-- The server built from the credential-less configuration. -/
def srv0 : Server := (New cfg0 mgr0 []).1

/-- A configuration with credentials `admin` / `secret`. -/
def cfgAuth : Config := ⟨"admin", "secret", "", 0, 0, 0⟩

/-- A request presenting basic-auth credentials that do not match `cfgAuth`. -/
def reqWrongCreds : Request := ⟨"GET", "/t", "10.0.0.1:1", some ("eve", "wrong")⟩

/-- A transport whose graceful shutdown reports an error. -/
def failingTransport : Transport := ⟨fun _ => some "shutdown deadline exceeded"⟩

/-- A concrete shutdown context. -/
def ctx0 : Ctx := ⟨0⟩

theorem runH_bind {α β : Type} (w : World) (c : HandlerM α) (f : α → HandlerM β) :
    ∀ s : RunState, runH w (bindH c f) s = andThen w (runH w c s) f := by
  induction c with
  | pure a => intro s; rfl
  | setHeader k v n ih => intro s; simp only [bindH, runH]; exact ih _
  | writeHeader st n ih => intro s; simp only [bindH, runH]; exact ih _
  | write d k ih => intro s; simp only [bindH, runH]; exact ih _ _ _
  | logInfo e n ih => intro s; simp only [bindH, runH]; exact ih _
  | logError e n ih => intro s; simp only [bindH, runH]; exact ih _
  | now k ih => intro s; simp only [bindH, runH]; exact ih _ _
  | getStack k ih => intro s; simp only [bindH, runH]; exact ih _ _
  | panicWith m => intro s; rfl

theorem runH_recoverBody (w : World) (m : String) (s : RunState) :
    runH w (recoverBody m) s =
      ({ s with writeCount := s.writeCount + 1,
                events := s.events ++ [.setHeader "Content-Type" "application/json",
                                       .writeHeader 500, .write (jsonErrorBody m)],
                logs := s.logs ++ [recoveredEntry m w.stack] }, .ok ()) := by
  simp only [recoverBody, runH, List.append_assoc, List.cons_append, List.nil_append]

theorem runH_recoverRun (w : World) (c : HandlerM Unit) :
    ∀ s : RunState, runH w (recoverRun c) s = recoverOutcome w (runH w c s) := by
  induction c with
  | pure a => intro s; rfl
  | setHeader k v n ih => intro s; simp only [recoverRun, runH]; exact ih _
  | writeHeader st n ih => intro s; simp only [recoverRun, runH]; exact ih _
  | write d k ih => intro s; simp only [recoverRun, runH]; exact ih _ _ _
  | logInfo e n ih => intro s; simp only [recoverRun, runH]; exact ih _
  | logError e n ih => intro s; simp only [recoverRun, runH]; exact ih _
  | now k ih => intro s; simp only [recoverRun, runH]; exact ih _ _
  | getStack k ih => intro s; simp only [recoverRun, runH]; exact ih _ _
  | panicWith m => intro s; rfl

theorem runH_recoverRun_ok (w : World) (c : HandlerM Unit) (s : RunState) :
    ∃ s2, runH w (recoverRun c) s = (s2, .ok ()) := by
  rw [runH_recoverRun]
  rcases hr : runH w c s with ⟨s1, o⟩
  cases o with
  | ok a =>
      cases a
      exact ⟨s1, rfl⟩
  | panicked m =>
      exact ⟨_, by simp only [recoverOutcome]; exact runH_recoverBody w m s1⟩

theorem runH_swRun_ok (w : World) (c : HandlerM Unit) :
    ∀ (st : statusWriter) (s s' : RunState),
      runH w c s = (s', .ok ()) →
      ∃ sw, runH w (swRun st c) s = (s', .ok sw) := by
  induction c with
  | pure a =>
      intro st s s' h
      cases a
      simp only [runH, Prod.mk.injEq] at h
      exact ⟨st, by simp only [swRun, runH, h.1]⟩
  | setHeader k v n ih =>
      intro st s s' h
      simp only [runH] at h
      simpa only [swRun, runH] using ih st _ s' h
  | writeHeader stc n ih =>
      intro st s s' h
      simp only [runH] at h
      simpa only [swRun, runH] using ih _ _ s' h
  | write d k ih =>
      intro st s s' h
      simp only [runH] at h
      simpa only [swRun, runH] using ih _ _ _ _ s' h
  | logInfo e n ih =>
      intro st s s' h
      simp only [runH] at h
      simpa only [swRun, runH] using ih st _ s' h
  | logError e n ih =>
      intro st s s' h
      simp only [runH] at h
      simpa only [swRun, runH] using ih st _ s' h
  | now k ih =>
      intro st s s' h
      simp only [runH] at h
      simpa only [swRun, runH] using ih _ st _ s' h
  | getStack k ih =>
      intro st s s' h
      simp only [runH] at h
      simpa only [swRun, runH] using ih _ st _ s' h
  | panicWith m =>
      intro st s s' h
      simp only [runH, Prod.mk.injEq] at h
      cases h.2

theorem runH_logs_extend {α : Type} (w : World) (c : HandlerM α) :
    ∀ s : RunState, ∃ t, ((runH w c s).1).logs = s.logs ++ t := by
  induction c with
  | pure a => intro s; exact ⟨[], by simp [runH]⟩
  | setHeader k v n ih =>
      intro s
      obtain ⟨t, ht⟩ := ih { s with events := s.events ++ [.setHeader k v] }
      exact ⟨t, by simpa only [runH] using ht⟩
  | writeHeader st n ih =>
      intro s
      obtain ⟨t, ht⟩ := ih { s with events := s.events ++ [.writeHeader st] }
      exact ⟨t, by simpa only [runH] using ht⟩
  | write d k ih =>
      intro s
      obtain ⟨t, ht⟩ := ih (w.sink s.writeCount d).1 (w.sink s.writeCount d).2
        { s with writeCount := s.writeCount + 1, events := s.events ++ [.write d] }
      exact ⟨t, by simpa only [runH] using ht⟩
  | logInfo e n ih =>
      intro s
      obtain ⟨t, ht⟩ := ih { s with logs := s.logs ++ [e] }
      exact ⟨[e] ++ t, by simpa only [runH, List.append_assoc] using ht⟩
  | logError e n ih =>
      intro s
      obtain ⟨t, ht⟩ := ih { s with logs := s.logs ++ [e] }
      exact ⟨[e] ++ t, by simpa only [runH, List.append_assoc] using ht⟩
  | now k ih =>
      intro s
      obtain ⟨t, ht⟩ := ih (w.clock s.nowCount) { s with nowCount := s.nowCount + 1 }
      exact ⟨t, by simpa only [runH] using ht⟩
  | getStack k ih =>
      intro s
      obtain ⟨t, ht⟩ := ih w.stack s
      exact ⟨t, by simpa only [runH] using ht⟩
  | panicWith m => intro s; exact ⟨[], by simp [runH]⟩

theorem runH_nowCount_le {α : Type} (w : World) (c : HandlerM α) :
    ∀ s : RunState, s.nowCount ≤ ((runH w c s).1).nowCount := by
  induction c with
  | pure a => intro s; simp [runH]
  | setHeader k v n ih =>
      intro s; exact ih { s with events := s.events ++ [.setHeader k v] }
  | writeHeader st n ih =>
      intro s; exact ih { s with events := s.events ++ [.writeHeader st] }
  | write d k ih =>
      intro s
      exact ih (w.sink s.writeCount d).1 (w.sink s.writeCount d).2
        { s with writeCount := s.writeCount + 1, events := s.events ++ [.write d] }
  | logInfo e n ih => intro s; exact ih { s with logs := s.logs ++ [e] }
  | logError e n ih => intro s; exact ih { s with logs := s.logs ++ [e] }
  | now k ih =>
      intro s
      exact le_trans (Nat.le_succ _)
        (ih (w.clock s.nowCount) { s with nowCount := s.nowCount + 1 })
  | getStack k ih => intro s; exact ih w.stack s
  | panicWith m => intro s; simp [runH]

/-- C1: the source's `basicAuth` compares the extracted credentials to
themselves (shadowed variables), so a request presenting credentials that do
NOT match the configured pair `admin`/`secret` still reaches the inner
handler (the marker entry is logged, nothing is written to the response) —
against the claim that it receives a 401 and the inner handler is not
invoked. -/
theorem basicAuth_wrong_creds_reach_handler :
    runH w0 (basicAuth hitHandler cfgAuth.Username cfgAuth.Password reqWrongCreds []) rs0
      = ({ rs0 with logs := [hitEntry] }, .ok ())
    ∧ (runH w0 (basicAuth hitHandler cfgAuth.Username cfgAuth.Password reqWrongCreds []) rs0).1.events
      = [] := by
  exact ⟨rfl, rfl⟩

/-- C2 counterexample: the chain `AddHandler` stores is observably NOT the
claimed Recovery-outermost composition.  On a panicking business handler the
stored chain emits two log entries (the recovery error entry, then the
logger's request entry observing status 500), while the claimed composition
emits only one (the panic unwinds past the inner logger before it can log). -/
theorem chain_order_counterexample :
    ((srv0.AddHandler "GET" "/boom" hpanic).1.router.map
       (fun rt => ((runH w0 (rt.handle req0 []) rs0).1.logs).length)) = [2]
    ∧ ((runH w0 (claimedChainC2 cfg0 hpanic req0 []) rs0).1.logs).length = 1 := by
  exact ⟨rfl, rfl⟩

/-- C2 amended: for every registration through `AddHandler` or
`AddServerHandler`, the stored chain is, outermost to innermost:
RequestLogger, then Recovery, then BasicAuth (only when both configured
credentials are non-empty), then the business handler. -/
theorem addHandler_chain_order (s : Server) (method path : String) (h : Handler)
    (f : ServerHandler) :
    (s.AddHandler method path h).1.router
      = s.router ++ [⟨method, path,
          logger (recovery (if s.config.Username != "" && s.config.Password != "" then
            basicAuth h s.config.Username s.config.Password else h))⟩]
    ∧ (s.AddServerHandler method path f).1.router
      = s.router ++ [⟨method, path,
          logger (recovery (if s.config.Username != "" && s.config.Password != "" then
            basicAuth (f s) s.config.Username s.config.Password else f s))⟩] := by
  constructor
  · rfl
  · unfold Server.AddServerHandler
    cases hc : (s.config.Username != "" && s.config.Password != "") <;> simp [hc]

/-- C3: when the inner handler's run ends in a panic with description `m`, the
recovery wrapper returns normally, appends exactly one error-level entry
containing the fault description and the runtime stack trace (non-empty by
hypothesis on the environment), and writes the 500 response: content-type
`application/json`, status 500, and the JSON error body for `m`. -/
theorem recovery_contains_fault (h : Handler) (req : Request) (ps : Params) (w : World)
    (rs s' : RunState) (m : String)
    (hrun : runH w (h req ps) rs = (s', .panicked m)) (hstack : w.stack ≠ "") :
    runH w (recovery h req ps) rs
      = ({ s' with writeCount := s'.writeCount + 1,
                   events := s'.events ++ [.setHeader "Content-Type" "application/json",
                                           .writeHeader 500, .write (jsonErrorBody m)],
                   logs := s'.logs ++ [recoveredEntry m w.stack] }, .ok ())
    ∧ (recoveredEntry m w.stack).level = LogLevel.error
    ∧ ("error", LogField.str m) ∈ (recoveredEntry m w.stack).fields
    ∧ ("stack", LogField.str w.stack) ∈ (recoveredEntry m w.stack).fields
    ∧ w.stack ≠ "" := by
  refine ⟨?_, rfl, by simp [recoveredEntry], by simp [recoveredEntry], hstack⟩
  show runH w (recoverRun (h req ps)) rs = _
  rw [runH_recoverRun, hrun]
  simp only [recoverOutcome]
  exact runH_recoverBody w m s'

/-- Witness for C3 at a concrete panicking handler and environment. -/
theorem recovery_contains_fault_witness :
    (runH w0 (hpanic req0 []) rs0 = (rs0, .panicked "x") ∧ w0.stack ≠ "")
    ∧ (runH w0 (recovery hpanic req0 []) rs0
        = ({ rs0 with writeCount := rs0.writeCount + 1,
                      events := rs0.events ++ [.setHeader "Content-Type" "application/json",
                                               .writeHeader 500, .write (jsonErrorBody "x")],
                      logs := rs0.logs ++ [recoveredEntry "x" w0.stack] }, .ok ())
       ∧ (recoveredEntry "x" w0.stack).level = LogLevel.error
       ∧ ("error", LogField.str "x") ∈ (recoveredEntry "x" w0.stack).fields
       ∧ ("stack", LogField.str w0.stack) ∈ (recoveredEntry "x" w0.stack).fields
       ∧ w0.stack ≠ "") :=
  ⟨⟨rfl, by decide⟩,
   recovery_contains_fault hpanic req0 [] w0 rs0 rs0 "x" rfl (by decide)⟩

/-- C4 counterexample: `Close` does not report the first error of the two
shutdown steps — with a transport whose graceful shutdown fails and a manager
whose close succeeds, `Close` returns nil although the first error
encountered was the shutdown error. -/
theorem close_drops_shutdown_error :
    (srv0.Close failingTransport ctx0).1
      ≠ firstErrorOf (failingTransport.shutdownResult ctx0) srv0.manager.closeResult := by
  decide

/-- C4 amended: `Close` initiates graceful shutdown of the transport with the
caller-supplied context (exactly one `Shutdown` call, with that context),
discards any error that shutdown reports, then closes the manager and returns
the manager's close result alone. -/
theorem close_reports_manager_result (s : Server) (t : Transport) (ctx : Ctx) :
    s.Close t ctx = (s.manager.closeResult, [ctx]) := rfl

/-- C5: for every environment with a monotone clock and every inner handler,
running the registered chain `logger (recovery h)` terminates normally and
appends, after whatever the inner handler logged, exactly one `api request`
info entry carrying the request's method, URI and remote address, the exact
status and byte count of the final status-capturing-writer state `sw` of the
inner run (pinned by the `swRun` equation in the first conjunct), and the
elapsed duration between the two clock reads, which is at least 0. -/
theorem logger_emits_one_entry (w : World) (req : Request) (ps : Params) (h : Handler)
    (rs : RunState) (hmono : ∀ i j : Nat, i ≤ j → w.clock i ≤ w.clock j) :
    ∃ (inner : List LogEntry) (sw : statusWriter) (s2 : RunState),
      runH w (swRun ⟨0, 0⟩ (recoverRun (h req ps))) { rs with nowCount := rs.nowCount + 1 }
        = (s2, .ok sw)
      ∧ (runH w (logger (recovery h) req ps) rs).1.logs
          = rs.logs ++ inner ++ [apiRequestEntry req (sw.status : Int) (sw.length : Int)
              (w.clock s2.nowCount - w.clock rs.nowCount)]
      ∧ 0 ≤ w.clock s2.nowCount - w.clock rs.nowCount
      ∧ (runH w (logger (recovery h) req ps) rs).2 = Outcome.ok () := by
  have hlog : runH w (logger (recovery h) req ps) rs
      = runH w (bindH (swRun ⟨0, 0⟩ (recoverRun (h req ps)))
          (fun sw => .now (fun stop =>
            .logInfo (apiRequestEntry req (sw.status : Int) (sw.length : Int)
              (stop - w.clock rs.nowCount)) (.pure ()))))
          { rs with nowCount := rs.nowCount + 1 } := rfl
  obtain ⟨s2, h2⟩ := runH_recoverRun_ok w (h req ps) { rs with nowCount := rs.nowCount + 1 }
  obtain ⟨sw, hsw⟩ := runH_swRun_ok w (recoverRun (h req ps)) ⟨0, 0⟩
    { rs with nowCount := rs.nowCount + 1 } s2 h2
  have hrun : runH w (logger (recovery h) req ps) rs
      = ({ s2 with nowCount := s2.nowCount + 1,
                   logs := s2.logs ++ [apiRequestEntry req (sw.status : Int) (sw.length : Int)
                     (w.clock s2.nowCount - w.clock rs.nowCount)] }, .ok ()) := by
    rw [hlog, runH_bind, hsw]
    rfl
  obtain ⟨inner, hinner⟩ := runH_logs_extend w
    (swRun ⟨0, 0⟩ (recoverRun (h req ps))) { rs with nowCount := rs.nowCount + 1 }
  have hs2logs : s2.logs = rs.logs ++ inner := by
    rw [hsw] at hinner
    exact hinner
  have hcount : rs.nowCount ≤ s2.nowCount := by
    have h1 := runH_nowCount_le w
      (swRun ⟨0, 0⟩ (recoverRun (h req ps))) { rs with nowCount := rs.nowCount + 1 }
    rw [hsw] at h1
    exact le_trans (Nat.le_succ _) h1
  refine ⟨inner, sw, s2, hsw, ?_, ?_, ?_⟩
  · rw [hrun]
    simp [hs2logs]
  · exact sub_nonneg.mpr (hmono _ _ hcount)
  · rw [hrun]

/-- Witness for C5 at a concrete environment, request and handler. -/
theorem logger_emits_one_entry_witness :
    (∀ i j : Nat, i ≤ j → w0.clock i ≤ w0.clock j)
    ∧ ∃ (inner : List LogEntry) (sw : statusWriter) (s2 : RunState),
        runH w0 (swRun ⟨0, 0⟩ (recoverRun (hitHandler req0 [])))
            { rs0 with nowCount := rs0.nowCount + 1 }
          = (s2, .ok sw)
        ∧ (runH w0 (logger (recovery hitHandler) req0 []) rs0).1.logs
            = rs0.logs ++ inner ++ [apiRequestEntry req0 (sw.status : Int) (sw.length : Int)
                (w0.clock s2.nowCount - w0.clock rs0.nowCount)]
        ∧ 0 ≤ w0.clock s2.nowCount - w0.clock rs0.nowCount
        ∧ (runH w0 (logger (recovery hitHandler) req0 []) rs0).2 = Outcome.ok () :=
  ⟨fun _ _ _ => le_refl 0,
   logger_emits_one_entry w0 req0 [] hitHandler rs0 (fun _ _ _ => le_refl 0)⟩

/-- C6: on the status-capturing writer, a `Write` before any `WriteHeader`
records status 200 (whatever byte count the sink reports), and
`WriteHeader 403` followed by two `Write` calls whose underlying sink accepts
5 and 7 bytes leaves status 403 and byte count 12. -/
theorem statusWriter_observed_status_length :
    (∀ n : Nat, ((statusWriter.mk 0 0).Write n).status = 200)
    ∧ ((((statusWriter.mk 0 0).WriteHeader 403).Write 5).Write 7) = ⟨403, 12⟩ := by
  exact ⟨fun n => rfl, rfl⟩

/-- C7: `Start` returns nil exactly when the transport's listen-and-serve loop
terminated with `http.ErrServerClosed`; every other terminating condition
(including a nil error, which the real loop never produces) yields a non-nil
wrapped error. -/
theorem start_nil_iff_server_closed (s : Server) (r : Option GoErr) :
    s.Start r = none ↔ r = some GoErr.errServerClosed := by
  unfold Server.Start
  split <;> simp_all

/-- C8: when the configured username or password is empty, `AddHandler` stores
the chain without the BasicAuth wrapper, and every request — whatever
credentials it presents — reaches the inner handler: the marker entry of the
instrumented handler appears in the log of every run of the stored chain. -/
theorem no_auth_when_credentials_empty (s : Server) (method path : String) (h : Handler)
    (req : Request) (ps : Params) (w : World) (rs : RunState)
    (hcred : s.config.Username = "" ∨ s.config.Password = "") :
    (s.AddHandler method path (tagged h)).1.router
      = s.router ++ [⟨method, path, logger (recovery (tagged h))⟩]
    ∧ hitEntry ∈ (runH w (logger (recovery (tagged h)) req ps) rs).1.logs := by
  have hc : (s.config.Username != "" && s.config.Password != "") = false := by
    rcases hcred with h1 | h1 <;> simp [h1]
  constructor
  · simp [Server.AddHandler, hc]
  · have hstep : runH w (logger (recovery (tagged h)) req ps) rs
        = runH w (bindH (swRun ⟨0, 0⟩ (recoverRun (h req ps)))
            (fun sw => .now (fun stop =>
              .logInfo (apiRequestEntry req (sw.status : Int) (sw.length : Int)
                (stop - w.clock rs.nowCount)) (.pure ()))))
            { rs with nowCount := rs.nowCount + 1, logs := rs.logs ++ [hitEntry] } := rfl
    rw [hstep]
    obtain ⟨t, ht⟩ := runH_logs_extend w
      (bindH (swRun ⟨0, 0⟩ (recoverRun (h req ps)))
        (fun sw => .now (fun stop =>
          .logInfo (apiRequestEntry req (sw.status : Int) (sw.length : Int)
            (stop - w.clock rs.nowCount)) (.pure ()))))
      { rs with nowCount := rs.nowCount + 1, logs := rs.logs ++ [hitEntry] }
    rw [ht]
    simp

/-- Witness for C8 at the concrete credential-less server. -/
theorem no_auth_when_credentials_empty_witness :
    (srv0.config.Username = "" ∨ srv0.config.Password = "")
    ∧ ((srv0.AddHandler "GET" "/h" (tagged hitHandler)).1.router
        = srv0.router ++ [⟨"GET", "/h", logger (recovery (tagged hitHandler))⟩]
       ∧ hitEntry ∈ (runH w0 (logger (recovery (tagged hitHandler)) req0 []) rs0).1.logs) :=
  ⟨Or.inl rfl,
   no_auth_when_credentials_empty srv0 "GET" "/h" hitHandler req0 [] w0 rs0 (Or.inl rfl)⟩

/-- C9: `New` returns no error and a server whose transport has the configured
listen address, whose three timeouts are taken from the config exactly when
nonzero (a zero config field leaves the transport's zero-value default), and
whose transport handler is bound to the router before anything is served. -/
theorem new_assembles_transport (cfg : Config) (m : Manager) (r : Router) :
    (New cfg m r).2 = none
    ∧ (New cfg m r).1.http.Addr = cfg.ListenAddress
    ∧ (New cfg m r).1.http.WriteTimeout
        = (if cfg.WriteTimeout ≠ 0 then cfg.WriteTimeout else GoHTTPServer.zeroValue.WriteTimeout)
    ∧ (New cfg m r).1.http.ReadTimeout
        = (if cfg.ReadTimeout ≠ 0 then cfg.ReadTimeout else GoHTTPServer.zeroValue.ReadTimeout)
    ∧ (New cfg m r).1.http.ReadHeaderTimeout
        = (if cfg.ReadHeaderTimeout ≠ 0 then cfg.ReadHeaderTimeout
           else GoHTTPServer.zeroValue.ReadHeaderTimeout)
    ∧ (New cfg m r).1.http.Handler = some HandlerRef.toRouter
    ∧ (New cfg m r).1.router = r := by
  unfold New
  by_cases h1 : cfg.WriteTimeout ≠ 0 <;> by_cases h2 : cfg.ReadTimeout ≠ 0 <;>
    by_cases h3 : cfg.ReadHeaderTimeout ≠ 0 <;>
      simp [h1, h2, h3, GoHTTPServer.zeroValue]

/-- C10: registering through `AddServerHandler` with a factory `f` is the same
operation as registering through `AddHandler` with the materialised handler
`f s`: identical resulting server and identical registration log. -/
theorem addServerHandler_eq_addHandler (s : Server) (method path : String) (f : ServerHandler) :
    s.AddServerHandler method path f = s.AddHandler method path (f s) := by
  unfold Server.AddServerHandler Server.AddHandler
  cases hc : (s.config.Username != "" && s.config.Password != "") <;> simp [hc]

end Replicant
